import Mathlib

/-!
Verification of the keras distribution core (device mesh, tensor layout,
layout map, distribution scope) and of the data-adapter dispatcher.

The distribution library implementation file is not among the provided
sources (only its test suite is), so those components are modelled from the
spec; each such definition says so in its doc comment.  The dispatcher
`get_data_adapter` is embedded from `keras/trainers/data_adapters/__init__.py`.
-/

namespace KerasSpec

/-! ## A small regular-expression matcher

The layout-map keys in the repository only use literal characters, the `.`
wildcard and the `*` repetition, matched with Python `re.match` semantics:
anchored at the start of the string, free at the end.  We model exactly that
fragment.  A pattern is parsed into a list of atoms, each possibly starred;
an atom is a literal character (`some c`) or the any-character dot (`none`).
-/

/-- Parse a pattern string into (atom, starred) pairs; `none` is `.`. -/
def parsePattern : List Char → List (Option Char × Bool)
  | [] => []
  | c :: '*' :: rest =>
      ((if c = '.' then none else some c), true) :: parsePattern rest
  | c :: rest =>
      ((if c = '.' then none else some c), false) :: parsePattern rest

/-- Does one atom match one character? -/
def atomMatches : Option Char → Char → Bool
  | none, _ => true
  | some c, d => c = d

/-- Anchored-at-start match of a parsed pattern against a string, with the
Python `re.match` convention that trailing input characters are allowed.
Structural recursion on a fuel counter: every recursive call strictly
decreases `ps.length + s.length`, so fuel `ps.length + s.length + 1` is
never exhausted and the `0` branch is unreachable. -/
def reMatchFuel : Nat → List (Option Char × Bool) → List Char → Bool
  | 0, _, _ => false
  | _ + 1, [], _ => true
  | _ + 1, (_, false) :: _, [] => false
  | n + 1, (a, false) :: ps, c :: cs => atomMatches a c && reMatchFuel n ps cs
  | n + 1, (_, true) :: ps, [] => reMatchFuel n ps []
  | n + 1, (a, true) :: ps, c :: cs =>
      reMatchFuel n ps (c :: cs) ||
        (atomMatches a c && reMatchFuel n ((a, true) :: ps) cs)

/-- `reMatch p s` models Python `re.match(p, s)` being truthy. -/
def reMatch (p s : String) : Bool :=
  reMatchFuel (p.toList.length + s.toList.length + 1)
    (parsePattern p.toList) s.toList

/-! ## DeviceMesh -/

/-- Modelled from the spec: `DeviceMesh`, an immutable N-dimensional grid of
device identifiers with named axes (`shape`, `axis_names`, `devices`). -/
structure DeviceMesh where
  shape : List Nat
  axis_names : List String
  devices : List String
deriving DecidableEq, Repr

/-- Modelled from the spec: DeviceMesh construction with fail-fast
validation (empty shape or axis names, length mismatch, size mismatch). -/
def DeviceMesh.create (shape : List Nat) (axis_names : List String)
    (devices : List String) : Except String DeviceMesh :=
  if shape.isEmpty || axis_names.isEmpty then
    .error "Shape and axis_names cannot be empty"
  else if shape.length ≠ axis_names.length then
    .error "Shape and axis_names should have same size"
  else if shape.foldl (· * ·) 1 ≠ devices.length then
    .error "Shape does not match the number of devices"
  else
    .ok ⟨shape, axis_names, devices⟩

/-! ## TensorLayout -/

/-- Modelled from the spec: a `TensorLayout` holds per-dimension `axes`
entries (`some name` = sharded on that mesh axis, `none` = replicated) and
an optional bound device mesh. -/
structure TensorLayout where
  axes : List (Option String)
  device_mesh : Option DeviceMesh
deriving DecidableEq, Repr

/-- An axes entry violating the mesh: non-replicated and not a mesh axis. -/
def badAxis (mesh : DeviceMesh) : Option String → Bool
  | none => false
  | some a => !(mesh.axis_names.contains a)

/-- The validation error text, naming the offending axis and the valid
axis set. -/
def invalidAxisMsg (a : String) (mesh : DeviceMesh) : String :=
  "Invalid axis names for Layout. Offending axis: " ++ a ++
    ". Valid axis names: " ++ String.intercalate ", " mesh.axis_names

/-- Modelled from the spec: for each entry in `axes` that is not the
replicated marker, confirm membership in `device_mesh.axis_names`; on the
first violation fail with an error naming the offending axis and the valid
axis set. -/
def validateAxes (axes : List (Option String)) (mesh : DeviceMesh) :
    Except String Unit :=
  match axes.find? (badAxis mesh) with
  | some (some a) => .error (invalidAxisMsg a mesh)
  | _ => .ok ()

/-- Modelled from the spec: construct a TensorLayout from
`(axes, device_mesh)`; when a mesh is supplied, validate immediately. -/
def TensorLayout.create (axes : List (Option String))
    (mesh : Option DeviceMesh) : Except String TensorLayout :=
  match mesh with
  | none => .ok ⟨axes, none⟩
  | some m => do
      validateAxes axes m
      .ok ⟨axes, some m⟩

/-- Modelled from the spec: attach a device mesh to a layout after
construction — validate, then store. -/
def TensorLayout.attach (t : TensorLayout) (m : DeviceMesh) :
    Except String TensorLayout := do
  validateAxes t.axes m
  .ok ⟨t.axes, some m⟩

/-! ## Backend translator (interface collaborator) -/

/-- A backend-native sharding descriptor: the mesh and a partition spec. -/
structure NamedSharding where
  mesh : DeviceMesh
  spec : List (Option String)
deriving DecidableEq, Repr

/-- Modelled from the spec: the backend translator turns a mesh-bound
TensorLayout into a native sharding descriptor and must fail with a message
identifying the missing-mesh condition when no device mesh is bound. -/
def toBackendLayout (t : TensorLayout) : Except String NamedSharding :=
  match t.device_mesh with
  | none => .error "Cannot create sharding when device mesh is not set for TensorLayout"
  | some m => .ok ⟨m, t.axes⟩

/-! ## LayoutMap -/

/-- Modelled from the spec: an ordered mapping from exact string key (a
regular-expression pattern, stored verbatim) to a TensorLayout, owned by a
single device mesh.  Insertion order is preserved. -/
structure LayoutMap where
  device_mesh : DeviceMesh
  entries : List (String × TensorLayout)
deriving DecidableEq, Repr

/-- A value handed to LayoutMap insertion: a TensorLayout, the accepted
shortcut (a tuple of axis-names-or-replicated-markers), or anything else
(carrying its display text for the error message).  Per the repository's
tests, a Python list is not the accepted shortcut and falls in `other`. -/
inductive LayoutValue where
  | tl (t : TensorLayout)
  | axesTuple (a : List (Option String))
  | other (shown : String)
deriving DecidableEq, Repr

/-- Literal key membership (never regex). -/
def LayoutMap.hasKey (m : LayoutMap) (key : String) : Bool :=
  m.entries.any (fun e => e.1 == key)

/-- Modelled from the spec: `set(pattern, layout_or_axes)` — fails if the
pattern already exists as a literal key, normalizes a raw axis tuple into a
TensorLayout, rejects other non-layout values, and binds (re-validating)
the map's device mesh into the stored layout. -/
def LayoutMap.set (m : LayoutMap) (key : String) (v : LayoutValue) :
    Except String LayoutMap :=
  if m.hasKey key then
    .error (key ++ " already exist in the LayoutMap.")
  else
    match v with
    | .other shown => .error (shown ++ " should be a TensorLayout type.")
    | .axesTuple a => do
        let t ← TensorLayout.attach ⟨a, none⟩ m.device_mesh
        .ok ⟨m.device_mesh, m.entries ++ [(key, t)]⟩
    | .tl t => do
        let t2 ← TensorLayout.attach t m.device_mesh
        .ok ⟨m.device_mesh, m.entries ++ [(key, t2)]⟩

/-- Modelled from the spec: `get(name)` — iterate entries in insertion
order, treat each stored key as a regex pattern, return the layout of the
first entry whose pattern matches `name`; `none` when no pattern matches. -/
def LayoutMap.get (m : LayoutMap) (name : String) : Option TensorLayout :=
  (m.entries.find? (fun e => reMatch e.1 name)).map (fun e => e.2)

/-- Modelled from the spec: `pop`/`del` — match the literal key string,
never as a regex; a key not literally present is a not-found error. -/
def LayoutMap.pop (m : LayoutMap) (key : String) :
    Except String (TensorLayout × LayoutMap) :=
  match m.entries.find? (fun e => e.1 == key) with
  | none => .error ("KeyError: " ++ key)
  | some e =>
      .ok (e.2, ⟨m.device_mesh, m.entries.filter (fun x => x.1 != key)⟩)

/-- Insertion-order key list. -/
def LayoutMap.keysList (m : LayoutMap) : List String :=
  m.entries.map (fun e => e.1)

/-- Every stored layout carries the map's device mesh. -/
def LayoutMap.meshBound (m : LayoutMap) : Prop :=
  ∀ e ∈ m.entries, e.2.device_mesh = some m.device_mesh

/-! ## Distribution, scope, and variants -/

/-- Modelled from the spec: base Distribution — a policy object holding a
device mesh. -/
structure Distribution where
  device_mesh : DeviceMesh
deriving DecidableEq, Repr

/-- Modelled from the spec: the process-wide current-distribution slot with
stack discipline.  `current` is what `distribution()` returns; `saved` is
the stack of prior values pushed by open scopes. -/
structure Slot where
  current : Option Distribution
  saved : List (Option Distribution)
deriving DecidableEq, Repr

/-- The state outside any scope: no current distribution, nothing saved. -/
def Slot.initial : Slot := ⟨none, []⟩

/-- Modelled from the spec: `distribution()` returns the currently active
distribution, or `none`. -/
def distribution (s : Slot) : Option Distribution := s.current

/-- Modelled from the spec: entering `d.scope()` saves the prior current
distribution and installs `d`. -/
def Slot.enterScope (s : Slot) (d : Distribution) : Slot :=
  ⟨some d, s.current :: s.saved⟩

/-- Modelled from the spec: exiting a scope restores the saved prior value
(run on every exit path, normal or exceptional). -/
def Slot.exitScope (s : Slot) : Slot :=
  match s.saved with
  | [] => s
  | p :: rest => ⟨p, rest⟩

/-- Modelled from the spec: run a body inside `d`'s scope.  The body may
finish normally or raise (an `Except.error` result); the scope exit runs
unconditionally afterwards, like a `finally`. -/
def withScope (s : Slot) (d : Distribution)
    (body : Slot → Except String Unit × Slot) : Except String Unit × Slot :=
  let s1 := s.enterScope d
  let (r, s2) := body s1
  (r, s2.exitScope)

/-- Shared data-layout policy: shard dimension 0 along the batch axis name,
replicate every other dimension. -/
def dataLayout (mesh : DeviceMesh) (batch : String) (shape : List Nat) :
    TensorLayout :=
  ⟨some batch :: List.replicate (shape.length - 1) none, some mesh⟩

/-- Modelled from the spec: DataParallel — mesh plus its batch axis name. -/
structure DataParallel where
  device_mesh : DeviceMesh
  batch_dim_name : String
deriving DecidableEq, Repr

/-- Modelled from the spec: DataParallel construction.  Exactly one of
`device_mesh` or `devices` (or neither) may be supplied; both at once is a
configuration error.  From a flat device list a 1-D mesh with axis name
`"batch"` is synthesized; with neither argument the `list_devices`
collaborator supplies the devices.  The returned `Nat` counts the calls
made to `list_devices`. -/
def DataParallel.create (device_mesh : Option DeviceMesh)
    (devices : Option (List String)) (list_devices : Unit → List String) :
    Except String (DataParallel × Nat) :=
  match device_mesh, devices with
  | some _, some _ =>
      .error "Only one of the device_mesh or devices can be supplied"
  | some m, none => .ok (⟨m, m.axis_names.headD "batch"⟩, 0)
  | none, some ds => .ok (⟨⟨[ds.length], ["batch"], ds⟩, "batch"⟩, 0)
  | none, none =>
      let ds := list_devices ()
      .ok (⟨⟨[ds.length], ["batch"], ds⟩, "batch"⟩, 1)

/-- Modelled from the spec: DataParallel `get_data_layout`. -/
def DataParallel.get_data_layout (d : DataParallel) (shape : List Nat) :
    TensorLayout :=
  dataLayout d.device_mesh d.batch_dim_name shape

/-- Modelled from the spec: DataParallel `get_variable_layout` — every
dimension replicated. -/
def DataParallel.get_variable_layout (d : DataParallel) (rank : Nat) :
    TensorLayout :=
  ⟨List.replicate rank none, some d.device_mesh⟩

/-- Modelled from the spec: ModelParallel — mesh, LayoutMap, batch axis. -/
structure ModelParallel where
  device_mesh : DeviceMesh
  layout_map : LayoutMap
  batch_dim_name : String
deriving DecidableEq, Repr

/-- Modelled from the spec: ModelParallel `get_variable_layout` — look the
variable's name up in the LayoutMap by pattern match; on a miss return a
fully-replicated layout over the variable's rank, bound to the mesh. -/
def ModelParallel.get_variable_layout (mp : ModelParallel) (name : String)
    (rank : Nat) : TensorLayout :=
  match mp.layout_map.get name with
  | some t => t
  | none => ⟨List.replicate rank none, some mp.device_mesh⟩

/-- Modelled from the spec: ModelParallel `get_data_layout` — identical
policy to DataParallel's, independent of the LayoutMap. -/
def ModelParallel.get_data_layout (mp : ModelParallel) (shape : List Nat) :
    TensorLayout :=
  dataLayout mp.device_mesh mp.batch_dim_name shape

/-! ## Data-adapter dispatch

Embedded from `keras/trainers/data_adapters/__init__.py`.  The input `x` is
abstracted by the outcomes of the type tests the dispatcher performs:
`can_convert_arrays((x, y, sample_weight))`, `is_tf_dataset(x)`,
`isinstance(x, PyDataset)`, `is_torch_dataloader(x)` and
`isinstance(x, types.GeneratorType)`; the remaining arguments by whether
they are `None` (or, for `shuffle`, their truthiness).
-/

/-- The five adapter classes `get_data_adapter` can return. -/
inductive AdapterKind where
  | arrayAdapter
  | tfDatasetAdapter
  | pyDatasetAdapter
  | torchLoaderAdapter
  | generatorAdapter
deriving DecidableEq, Repr

/-- Outcome of a `get_data_adapter` call: an adapter or a raised
`ValueError` carrying its message. -/
inductive AdapterResult where
  | adapter (k : AdapterKind)
  | err (msg : String)
deriving DecidableEq, Repr

/-- One call to `get_data_adapter`, abstracted as described above.
`xTypeName` is the display text Python would use for `x` and its type in
the unrecognized-type message. -/
structure AdapterArgs where
  canConvertArrays : Bool
  isTfDataset : Bool
  isPyDataset : Bool
  isTorchDataLoader : Bool
  isGenerator : Bool
  xTypeName : String
  yIsNone : Bool
  sampleWeightIsNone : Bool
  classWeightIsNone : Bool
  shuffle : Bool
deriving DecidableEq, Repr

/-- `raise_unsupported_arg` from the source: the ValueError message built
for an argument that must not accompany a streaming `x`. -/
def raise_unsupported_arg (arg_name arg_description input_type : String) :
    AdapterResult :=
  .err ("When providing `x` as a " ++ input_type ++ ", `" ++ arg_name ++
    "` should not be passed. Instead, " ++ arg_description ++
    " should be included as part of the " ++ input_type ++ ".")

/-- `get_data_adapter` from the source: the if/elif dispatch chain, with
each branch's unsupported-argument checks. -/
def get_data_adapter (a : AdapterArgs) : AdapterResult :=
  if a.canConvertArrays then
    .adapter .arrayAdapter
  else if a.isTfDataset then
    if !a.yIsNone then raise_unsupported_arg "y" "the targets" "tf.data.Dataset"
    else if !a.sampleWeightIsNone then
      raise_unsupported_arg "sample_weights" "the sample weights" "tf.data.Dataset"
    else .adapter .tfDatasetAdapter
  else if a.isPyDataset then
    if !a.yIsNone then raise_unsupported_arg "y" "the targets" "PyDataset"
    else if !a.sampleWeightIsNone then
      raise_unsupported_arg "sample_weights" "the sample weights" "PyDataset"
    else .adapter .pyDatasetAdapter
  else if a.isTorchDataLoader then
    if !a.yIsNone then raise_unsupported_arg "y" "the targets" "torch DataLoader"
    else if !a.sampleWeightIsNone then
      raise_unsupported_arg "sample_weights" "the sample weights" "torch DataLoader"
    else if !a.classWeightIsNone then
      .err "Argument `class_weight` is not supported for torch DataLoader inputs."
    else .adapter .torchLoaderAdapter
  else if a.isGenerator then
    if !a.yIsNone then raise_unsupported_arg "y" "the targets" "PyDataset"
    else if !a.sampleWeightIsNone then
      raise_unsupported_arg "sample_weights" "the sample weights" "PyDataset"
    else if !a.classWeightIsNone then
      .err "Argument `class_weight` is not supported for Python generator inputs."
    else if a.shuffle then
      .err "Argument `shuffle` is not supported for Python generator inputs."
    else .adapter .generatorAdapter
  else
    .err ("Unrecognized data type: x=" ++ a.xTypeName)

/-- The first category of the dispatch order that `x` matches, if any. -/
def firstCategory (a : AdapterArgs) : Option AdapterKind :=
  if a.canConvertArrays then some .arrayAdapter
  else if a.isTfDataset then some .tfDatasetAdapter
  else if a.isPyDataset then some .pyDatasetAdapter
  else if a.isTorchDataLoader then some .torchLoaderAdapter
  else if a.isGenerator then some .generatorAdapter
  else none

/-! ## Concrete fixtures (mirroring the test suite's meshes and layouts) -/

def devices8 : List String :=
  ["cpu:0", "cpu:1", "cpu:2", "cpu:3", "cpu:4", "cpu:5", "cpu:6", "cpu:7"]

def mesh0 : DeviceMesh := ⟨[4, 2], ["data", "model"], devices8⟩

def mesh24 : DeviceMesh := ⟨[2, 4], ["data", "model"], devices8⟩

/-! ## Claims -/

/-- C3: the current-distribution slot obeys stack discipline: outside any
scope `distribution()` is `none`; entering a scope installs the innermost
distribution; exiting (on every exit path, including an error raised by the
body) restores the previous value; nesting A then B and exiting both yields
`none` again. -/
theorem c3_scope_stack_discipline :
    distribution Slot.initial = none ∧
    (∀ A B : Distribution,
      distribution (Slot.initial.enterScope A) = some A ∧
      distribution ((Slot.initial.enterScope A).enterScope B) = some B ∧
      distribution (((Slot.initial.enterScope A).enterScope B).exitScope) =
        some A ∧
      distribution
        ((((Slot.initial.enterScope A).enterScope B).exitScope).exitScope) =
        none) ∧
    (∀ (s : Slot) (d : Distribution),
      distribution ((s.enterScope d).exitScope) = distribution s) ∧
    (∀ (s : Slot) (d : Distribution) (r : Except String Unit),
      (withScope s d (fun s1 => (r, s1))).1 = r ∧
      (withScope s d (fun s1 => (r, s1))).2 = s) := by
  refine ⟨rfl, fun A B => ⟨rfl, rfl, rfl, rfl⟩, fun s d => rfl,
    fun s d r => ⟨rfl, rfl⟩⟩

/-- C5: for every shape of rank at least 1, `get_data_layout` on both
DataParallel and ModelParallel returns a mesh-bound layout whose first axis
entry is the batch axis name and whose remaining entries are replicated;
for ModelParallel the result is independent of the LayoutMap. -/
theorem c5_get_data_layout (dp : DataParallel) (mp : ModelParallel)
    (shape : List Nat) (h : 1 ≤ shape.length) :
    dp.get_data_layout shape =
      ⟨some dp.batch_dim_name :: List.replicate (shape.length - 1) none,
        some dp.device_mesh⟩ ∧
    (dp.get_data_layout shape).axes.length = shape.length ∧
    mp.get_data_layout shape =
      ⟨some mp.batch_dim_name :: List.replicate (shape.length - 1) none,
        some mp.device_mesh⟩ ∧
    (mp.get_data_layout shape).axes.length = shape.length ∧
    (∀ lm : LayoutMap,
      (ModelParallel.mk mp.device_mesh lm mp.batch_dim_name).get_data_layout
          shape =
        mp.get_data_layout shape) := by
  refine ⟨rfl, ?_, rfl, ?_, fun lm => rfl⟩ <;>
    simp [DataParallel.get_data_layout, ModelParallel.get_data_layout,
      dataLayout] <;> omega

def dp0 : DataParallel := ⟨⟨[8], ["data"], devices8⟩, "data"⟩

def mp0 : ModelParallel := ⟨mesh24, ⟨mesh24, []⟩, "data"⟩

/-- Witness for C5 at shape `(4, 2, 2)` on the test fixtures. -/
theorem c5_get_data_layout_witness :
    1 ≤ ([4, 2, 2] : List Nat).length ∧
    dp0.get_data_layout [4, 2, 2] =
      ⟨[some "data", none, none], some dp0.device_mesh⟩ ∧
    mp0.get_data_layout [4, 2, 2] =
      ⟨[some "data", none, none], some mp0.device_mesh⟩ := by
  have h := c5_get_data_layout dp0 mp0 [4, 2, 2] (by decide)
  exact ⟨by decide, h.1, h.2.2.1⟩

/-- C6: axis validation is one and the same check at construction with a
mesh and at mesh attachment: any entry of `axes` that is neither the
replicated marker nor a mesh axis makes both fail with an error naming the
first offending axis, and attaching a valid mesh succeeds with the mesh
retrievable and the axes unchanged. -/
theorem c6_tensor_layout_validation (axes : List (Option String))
    (m : DeviceMesh) :
    TensorLayout.create axes (some m) = TensorLayout.attach ⟨axes, none⟩ m ∧
    (∀ x, axes.find? (badAxis m) = some x →
      ∃ a, x = some a ∧
        TensorLayout.create axes (some m) = .error (invalidAxisMsg a m) ∧
        TensorLayout.attach ⟨axes, none⟩ m = .error (invalidAxisMsg a m)) ∧
    (axes.find? (badAxis m) = none →
      TensorLayout.attach ⟨axes, none⟩ m = .ok ⟨axes, some m⟩) := by
  refine ⟨rfl, ?_, ?_⟩
  · intro x hx
    have hpx := List.find?_some hx
    match x, hpx with
    | some a, _ =>
      refine ⟨a, rfl, ?_, ?_⟩ <;>
        simp [TensorLayout.create, TensorLayout.attach, validateAxes, hx,
          Bind.bind, Except.bind]
  · intro h
    simp [TensorLayout.attach, validateAxes, h, Bind.bind, Except.bind]

/-- Witness for C6 on the test mesh: axis `"unknown"` is rejected (both at
construction and at attachment) and valid axes attach successfully. -/
theorem c6_tensor_layout_validation_witness :
    ([some "data", some "unknown", none] : List (Option String)).find?
        (badAxis mesh0) = some (some "unknown") ∧
    TensorLayout.create [some "data", some "unknown", none] (some mesh0) =
      .error (invalidAxisMsg "unknown" mesh0) ∧
    TensorLayout.attach ⟨[some "data", some "unknown", none], none⟩ mesh0 =
      .error (invalidAxisMsg "unknown" mesh0) ∧
    TensorLayout.attach ⟨[some "data", none], none⟩ mesh0 =
      .ok ⟨[some "data", none], some mesh0⟩ := by
  have hbad :=
    (c6_tensor_layout_validation [some "data", some "unknown", none]
      mesh0).2.1 (some "unknown") (by decide)
  obtain ⟨a, ha, hc, hatt⟩ := hbad
  cases ha
  have hok :=
    (c6_tensor_layout_validation [some "data", none] mesh0).2.2 (by decide)
  exact ⟨by decide, hc, hatt, hok⟩

/-- C8: DataParallel construction rejects supplying both `device_mesh` and
`devices` at construction time; from a flat device list it synthesizes a
1-D mesh with axis name `"batch"` and batch dimension `"batch"`; with
neither argument it calls the `list_devices` collaborator exactly once. -/
theorem c8_data_parallel_construction :
    ∀ (m : DeviceMesh) (ds : List String) (ld : Unit → List String),
      DataParallel.create (some m) (some ds) ld =
        .error "Only one of the device_mesh or devices can be supplied" ∧
      DataParallel.create none (some ds) ld =
        .ok (⟨⟨[ds.length], ["batch"], ds⟩, "batch"⟩, 0) ∧
      DataParallel.create none none ld =
        .ok (⟨⟨[(ld ()).length], ["batch"], ld ()⟩, "batch"⟩, 1) :=
  fun _ _ _ => ⟨rfl, rfl, rfl⟩

/-- C9: the backend translator never succeeds on a mesh-less TensorLayout:
it fails with the message identifying the missing-mesh condition. -/
theorem c9_translator_requires_mesh (t : TensorLayout)
    (h : t.device_mesh = none) :
    toBackendLayout t =
      .error
        "Cannot create sharding when device mesh is not set for TensorLayout" ∧
    ∀ d, toBackendLayout t ≠ .ok d := by
  constructor
  · simp [toBackendLayout, h]
  · intro d
    simp [toBackendLayout, h]

/-- Witness for C9 on the mesh-less layout from the backend test. -/
theorem c9_translator_requires_mesh_witness :
    (⟨[some "data", none], none⟩ : TensorLayout).device_mesh = none ∧
    toBackendLayout ⟨[some "data", none], none⟩ =
      .error
        "Cannot create sharding when device mesh is not set for TensorLayout" :=
  ⟨rfl, (c9_translator_requires_mesh ⟨[some "data", none], none⟩ rfl).1⟩

/-- Any layout produced by pattern lookup is one of the stored entries, so
it carries the map's device mesh whenever all stored entries do. -/
theorem LayoutMap.get_meshBound (m : LayoutMap) (name : String)
    (t : TensorLayout) (hb : m.meshBound) (h : m.get name = some t) :
    t.device_mesh = some m.device_mesh := by
  unfold LayoutMap.get at h
  rw [Option.map_eq_some'] at h
  obtain ⟨e, he, rfl⟩ := h
  exact hb e (List.mem_of_find?_eq_some he)

/-- C1: pattern lookup scans entries in insertion order, treats each stored
key as a regex, returns the first matching entry's layout, and returns
`none` (not an error) when nothing matches; in particular after inserting
`dense/kernel` then `dense.*kernel`, looking up `dense/kernel` returns the
first inserted rule's layout. -/
theorem c1_get_first_match (m : LayoutMap) (name : String) :
    ((∀ e ∈ m.entries, reMatch e.1 name = false) → m.get name = none) ∧
    (∀ (l₁ l₂ : List (String × TensorLayout)) (e : String × TensorLayout),
      m.entries = l₁ ++ e :: l₂ →
      (∀ x ∈ l₁, reMatch x.1 name = false) →
      reMatch e.1 name = true →
      m.get name = some e.2) ∧
    (do
        let m1 ← (LayoutMap.mk mesh0 []).set "dense/kernel"
          (.tl ⟨[none, some "model"], none⟩)
        let m2 ← m1.set "dense.*kernel" (.tl ⟨[none, none], none⟩)
        pure (m2.get "dense/kernel")) =
      Except.ok (some ⟨[none, some "model"], some mesh0⟩) := by
  refine ⟨?_, ?_, by rfl⟩
  · intro h
    have hn : m.entries.find? (fun e => reMatch e.1 name) = none :=
      List.find?_eq_none.mpr (by intro x hx; simp [h x hx])
    simp [LayoutMap.get, hn]
  · intro l₁ l₂ e hsplit h1 he
    have hn : l₁.find? (fun x => reMatch x.1 name) = none :=
      List.find?_eq_none.mpr (by intro x hx; simp [h1 x hx])
    have he' : (fun x : String × TensorLayout => reMatch x.1 name) e = true :=
      he
    have hf : m.entries.find? (fun e => reMatch e.1 name) = some e := by
      rw [hsplit, List.find?_append, hn, Option.none_or,
        List.find?_cons_of_pos (p := fun x => reMatch x.1 name) l₂ he']
    simp [LayoutMap.get, hf]

def lmC1 : LayoutMap :=
  ⟨mesh0, [("dense/kernel", ⟨[none, some "model"], some mesh0⟩),
    ("dense.*kernel", ⟨[none, none], some mesh0⟩)]⟩

/-- Witness for C1: on the two-rule map, a name no pattern matches yields
`none`, and `dense_2/kernel` (missed by the first rule, matched by the
second) yields the second rule's layout. -/
theorem c1_get_first_match_witness :
    (∀ e ∈ lmC1.entries, reMatch e.1 "conv2d/bias" = false) ∧
    lmC1.get "conv2d/bias" = none ∧
    reMatch "dense.*kernel" "dense_2/kernel" = true ∧
    lmC1.get "dense_2/kernel" = some ⟨[none, none], some mesh0⟩ := by
  refine ⟨by decide, (c1_get_first_match lmC1 "conv2d/bias").1 (by decide),
    by decide, ?_⟩
  exact (c1_get_first_match lmC1 "dense_2/kernel").2.1
    [("dense/kernel", ⟨[none, some "model"], some mesh0⟩)] []
    ("dense.*kernel", ⟨[none, none], some mesh0⟩) rfl (by decide) (by decide)

/-- C2: deletion matches the stored key literally, never as a regex: a key
not literally present produces a not-found error (never a success), while
`get`'s pattern miss is the distinct `none` result, not an error. -/
theorem c2_delete_literal (m : LayoutMap) (key : String) :
    ((∀ e ∈ m.entries, e.1 ≠ key) →
      m.pop key = .error ("KeyError: " ++ key)) ∧
    ((∀ e ∈ m.entries, e.1 ≠ key) → ∀ r, m.pop key ≠ .ok r) ∧
    ((∀ e ∈ m.entries, reMatch e.1 key = false) → m.get key = none) := by
  have hfind : (∀ e ∈ m.entries, e.1 ≠ key) →
      m.entries.find? (fun e => e.1 == key) = none := by
    intro h
    exact List.find?_eq_none.mpr (by intro x hx; simp [h x hx])
  refine ⟨?_, ?_, ?_⟩
  · intro h
    simp [LayoutMap.pop, hfind h]
  · intro h r
    simp [LayoutMap.pop, hfind h]
  · intro h
    have hn : m.entries.find? (fun e => reMatch e.1 key) = none :=
      List.find?_eq_none.mpr (by intro x hx; simp [h x hx])
    simp [LayoutMap.get, hn]

def lmC2 : LayoutMap :=
  ⟨mesh0, [("dense/kernel", ⟨[none, some "model"], some mesh0⟩),
    ("dense/bias", ⟨[some "model"], some mesh0⟩)]⟩

/-- Witness for C2: `.*bias` is not a literal key of the map, so `pop`
fails with the not-found error even though `.*bias` as a regex matches the
stored key `dense/bias`; `get` of the same string is `none`, not an
error. -/
theorem c2_delete_literal_witness :
    (∀ e ∈ lmC2.entries, e.1 ≠ ".*bias") ∧
    lmC2.pop ".*bias" = .error "KeyError: .*bias" ∧
    reMatch ".*bias" "dense/bias" = true ∧
    lmC2.get ".*bias" = none := by
  refine ⟨by decide, ?_, by decide, ?_⟩
  · exact (c2_delete_literal lmC2 ".*bias").1 (by decide)
  · exact (c2_delete_literal lmC2 ".*bias").2.2 (by decide)

/-- C4: ModelParallel `get_variable_layout` resolves the variable name
through the LayoutMap: a matching rule's layout (mesh-bound) is returned
verbatim; on a miss a fully-replicated mesh-bound layout of the variable's
rank is returned. -/
theorem c4_model_parallel_variable_layout (mp : ModelParallel)
    (name : String) (rank : Nat) (hb : mp.layout_map.meshBound)
    (hm : mp.layout_map.device_mesh = mp.device_mesh) :
    (∀ t, mp.layout_map.get name = some t →
      mp.get_variable_layout name rank = t ∧
      t.device_mesh = some mp.device_mesh) ∧
    (mp.layout_map.get name = none →
      mp.get_variable_layout name rank =
        ⟨List.replicate rank none, some mp.device_mesh⟩ ∧
      (mp.get_variable_layout name rank).axes.length = rank) := by
  constructor
  · intro t ht
    refine ⟨by simp [ModelParallel.get_variable_layout, ht], ?_⟩
    rw [← hm]
    exact LayoutMap.get_meshBound _ _ _ hb ht
  · intro hn
    refine ⟨by simp [ModelParallel.get_variable_layout, hn], ?_⟩
    simp [ModelParallel.get_variable_layout, hn]

def lmC4 : LayoutMap :=
  ⟨mesh24, [(".*kernel", ⟨[none, some "model"], some mesh24⟩),
    (".*bias", ⟨[some "model"], some mesh24⟩)]⟩

def mpC4 : ModelParallel := ⟨mesh24, lmC4, "data"⟩

/-- Witness for C4: on the test fixture, the variable `kernel` resolves to
the `.*kernel` rule's layout and the unmatched variable `seed` of rank 1 to
the all-replicated layout. -/
theorem c4_model_parallel_variable_layout_witness :
    mpC4.layout_map.meshBound ∧
    mpC4.get_variable_layout "kernel" 2 =
      ⟨[none, some "model"], some mesh24⟩ ∧
    mpC4.get_variable_layout "seed" 1 = ⟨[none], some mesh24⟩ := by
  have hb : mpC4.layout_map.meshBound := by
    intro e he
    fin_cases he <;> rfl
  have h := c4_model_parallel_variable_layout mpC4 "kernel" 2 hb rfl
  have h2 := c4_model_parallel_variable_layout mpC4 "seed" 1 hb rfl
  refine ⟨hb, (h.1 _ (by rfl)).1, ?_⟩
  have := (h2.2 (by rfl)).1
  simpa using this

/-- A successful mesh attachment yields exactly the original axes with the
mesh stored. -/
theorem attach_ok {t : TensorLayout} {m : DeviceMesh} {t2 : TensorLayout}
    (h : t.attach m = .ok t2) : t2 = ⟨t.axes, some m⟩ := by
  unfold TensorLayout.attach at h
  cases hv : validateAxes t.axes m with
  | error e => rw [hv] at h; simp [Bind.bind, Except.bind] at h
  | ok u =>
    rw [hv] at h
    simp [Bind.bind, Except.bind] at h
    exact h.symm

/-- Whatever value a successful `set` stored, the new map is the old one
with one entry appended whose layout carries the map's device mesh. -/
theorem set_ok_shape {m : LayoutMap} {key : String} {v : LayoutValue}
    {m2 : LayoutMap} (h : m.set key v = .ok m2) :
    ∃ axes,
      m2 = ⟨m.device_mesh,
        m.entries ++ [(key, ⟨axes, some m.device_mesh⟩)]⟩ := by
  cases hk : m.hasKey key with
  | true => simp [LayoutMap.set, hk] at h
  | false =>
    cases v with
    | other shown => simp [LayoutMap.set, hk] at h
    | tl t =>
      simp only [LayoutMap.set, hk, Bool.false_eq_true, if_false] at h
      cases hatt : t.attach m.device_mesh with
      | error e => rw [hatt] at h; simp [Bind.bind, Except.bind] at h
      | ok t2 =>
        rw [hatt] at h
        simp [Bind.bind, Except.bind] at h
        exact ⟨t.axes, by rw [← h, attach_ok hatt]⟩
    | axesTuple a =>
      simp only [LayoutMap.set, hk, Bool.false_eq_true, if_false] at h
      cases hatt : TensorLayout.attach ⟨a, none⟩ m.device_mesh with
      | error e => rw [hatt] at h; simp [Bind.bind, Except.bind] at h
      | ok t2 =>
        rw [hatt] at h
        simp [Bind.bind, Except.bind] at h
        exact ⟨a, by rw [← h, attach_ok hatt]⟩

/-- C7: LayoutMap insertion normalizes an axis tuple into a TensorLayout
bound to the map's device mesh, rejects other non-layout values with a
"should be a TensorLayout" error, raises an already-exists error on a
duplicate key, and every value later retrieved from the map carries the
map's device mesh. -/
theorem c7_layout_map_insertion (m : LayoutMap) (key : String)
    (v : LayoutValue) :
    (m.hasKey key = true →
      m.set key v = .error (key ++ " already exist in the LayoutMap.")) ∧
    (∀ shown, m.hasKey key = false → v = .other shown →
      m.set key v = .error (shown ++ " should be a TensorLayout type.")) ∧
    (∀ a, m.hasKey key = false → v = .axesTuple a →
      a.find? (badAxis m.device_mesh) = none →
      m.set key v =
        .ok ⟨m.device_mesh,
          m.entries ++ [(key, ⟨a, some m.device_mesh⟩)]⟩) ∧
    (∀ m2, m.meshBound → m.set key v = .ok m2 →
      m2.device_mesh = m.device_mesh ∧ m2.meshBound) ∧
    (∀ name t, m.meshBound → m.get name = some t →
      t.device_mesh = some m.device_mesh) := by
  refine ⟨?_, ?_, ?_, ?_,
    fun name t hb ht => LayoutMap.get_meshBound m name t hb ht⟩
  · intro h
    simp [LayoutMap.set, h]
  · intro shown h hv
    subst hv
    simp [LayoutMap.set, h]
  · intro a h hv hval
    subst hv
    simp [LayoutMap.set, h, TensorLayout.attach, validateAxes, hval,
      Bind.bind, Except.bind]
  · intro m2 hb hok
    obtain ⟨axes, rfl⟩ := set_ok_shape hok
    refine ⟨rfl, ?_⟩
    intro e he
    rcases List.mem_append.mp he with h1 | h1
    · exact hb e h1
    · rw [List.mem_singleton.mp h1]

def lm1C7 : LayoutMap :=
  ⟨mesh0, [("dense/kernel", ⟨[none, some "model"], some mesh0⟩)]⟩

/-- Witness for C7 on the test fixture: a tuple insertion is normalized
into a mesh-bound TensorLayout, a duplicate key and a non-layout value are
rejected with the respective errors, insertion preserves mesh-boundness,
and a retrieved value carries the map's mesh. -/
theorem c7_layout_map_insertion_witness :
    (LayoutMap.mk mesh0 []).set "dense/kernel"
        (.axesTuple [none, some "model"]) = .ok lm1C7 ∧
    lm1C7.set "dense/kernel" (.tl ⟨[none, some "model"], none⟩) =
      .error "dense/kernel already exist in the LayoutMap." ∧
    lm1C7.set "conv.kernel" (.other "[a, b]") =
      .error "[a, b] should be a TensorLayout type." ∧
    (lm1C7.device_mesh = mesh0 ∧ lm1C7.meshBound) ∧
    (⟨[none, some "model"], some mesh0⟩ : TensorLayout).device_mesh =
      some lm1C7.device_mesh := by
  have hempty : (LayoutMap.mk mesh0 []).meshBound := by
    intro e he
    cases he
  have hset :=
    (c7_layout_map_insertion (LayoutMap.mk mesh0 []) "dense/kernel"
      (.axesTuple [none, some "model"])).2.2.1 [none, some "model"]
      rfl rfl (by rfl)
  refine ⟨hset, ?_, ?_, ?_, ?_⟩
  · exact (c7_layout_map_insertion lm1C7 "dense/kernel"
      (.tl ⟨[none, some "model"], none⟩)).1 rfl
  · exact (c7_layout_map_insertion lm1C7 "conv.kernel"
      (.other "[a, b]")).2.1 "[a, b]" rfl rfl
  · exact (c7_layout_map_insertion (LayoutMap.mk mesh0 []) "dense/kernel"
      (.axesTuple [none, some "model"])).2.2.2.1 lm1C7 hempty hset
  · have hb : lm1C7.meshBound := by
      intro e he
      fin_cases he
      rfl
    exact (c7_layout_map_insertion lm1C7 "dense/kernel"
      (.tl ⟨[none, some "model"], none⟩)).2.2.2.2 "dense/kernel"
      ⟨[none, some "model"], some mesh0⟩ hb (by rfl)

/-- C10: `get_data_adapter` never silently ignores an argument: a
streaming `x` (tf.data.Dataset, PyDataset, torch DataLoader or generator —
none of which is array-convertible) together with a non-`None` `y` or
`sample_weight` raises a ValueError; an `x` matching none of the five
categories raises a ValueError naming the unrecognized type; and any
adapter returned is of the first matching category in the fixed dispatch
order. -/
theorem c10_get_data_adapter_dispatch (a : AdapterArgs) :
    (a.canConvertArrays = false →
      (a.isTfDataset = true ∨ a.isPyDataset = true ∨
        a.isTorchDataLoader = true ∨ a.isGenerator = true) →
      (a.yIsNone = false ∨ a.sampleWeightIsNone = false) →
      ∃ msg, get_data_adapter a = .err msg) ∧
    (a.canConvertArrays = false → a.isTfDataset = false →
      a.isPyDataset = false → a.isTorchDataLoader = false →
      a.isGenerator = false →
      get_data_adapter a =
        .err ("Unrecognized data type: x=" ++ a.xTypeName)) ∧
    (∀ k, get_data_adapter a = .adapter k → firstCategory a = some k) := by
  obtain ⟨cc, tf, py, tcl, gen, xn, y, sw, cw, sh⟩ := a
  cases cc <;> cases tf <;> cases py <;> cases tcl <;> cases gen <;>
    cases y <;> cases sw <;> cases cw <;> cases sh <;>
    simp_all [get_data_adapter, firstCategory, raise_unsupported_arg]

def argsTfWithY : AdapterArgs :=
  ⟨false, true, false, false, false, "tf.data.Dataset", false, true, true,
    false⟩

def argsUnrecognized : AdapterArgs :=
  ⟨false, false, false, false, false, "object", true, true, true, false⟩

def argsGenerator : AdapterArgs :=
  ⟨false, false, false, false, true, "generator", true, true, true, false⟩

/-- Witness for C10: a tf.data.Dataset `x` with a non-`None` `y` raises; an
unrecognized `x` raises the type-naming error; a plain generator call
returns the generator adapter, which is its first matching category. -/
theorem c10_get_data_adapter_dispatch_witness :
    (∃ msg, get_data_adapter argsTfWithY = .err msg) ∧
    get_data_adapter argsUnrecognized = .err "Unrecognized data type: x=object" ∧
    get_data_adapter argsGenerator = .adapter .generatorAdapter ∧
    firstCategory argsGenerator = some .generatorAdapter := by
  refine ⟨(c10_get_data_adapter_dispatch argsTfWithY).1 rfl (Or.inl rfl)
    (Or.inl rfl), ?_, rfl, ?_⟩
  · exact (c10_get_data_adapter_dispatch argsUnrecognized).2.1
      rfl rfl rfl rfl rfl
  · exact (c10_get_data_adapter_dispatch argsGenerator).2.2
      AdapterKind.generatorAdapter rfl

end KerasSpec
